import Mathlib

/-!
Shallow embedding of the Video Discovery & Ranking Engine
(the `find-video` edge function): YouTube candidate scoring
(`searchYouTube`), view-count formatting (`formatViewCount`), the
planning fallback, and the HTTP handler's control flow.

JavaScript numbers are modelled as rationals (`ℚ`); `Math.round` as
round-half-up; falsy-or defaults (`x || d`) on string-valued fields via
`jsOr`; thrown exceptions as `Except.error` carrying the message; the
two external fetches (generative planner, YouTube API) as explicit
inputs of the handler environment.
-/

/-- JavaScript `Math.round`: round half toward positive infinity. -/
def jsRound (x : ℚ) : ℤ := ⌊x + 1/2⌋

/-- JavaScript `Number.prototype.toFixed(1)` on a nonnegative value:
round to one decimal digit (ties up) and render as `"<int>.<digit>"`. -/
def toFixed1 (q : ℚ) : String :=
  let n : ℕ := (jsRound (q * 10)).toNat
  toString (n / 10) ++ "." ++ toString (n % 10)

/-- `formatViewCount` (source lines 77–85). -/
def formatViewCount (count : ℕ) : String :=
  if 1000000 ≤ count then toFixed1 ((count : ℚ) / 1000000) ++ "M"
  else if 1000 ≤ count then toFixed1 ((count : ℚ) / 1000) ++ "K"
  else toString count

/-- One item of the YouTube details response, as consumed by the mapping
at source lines 49–71.  `viewCount?`/`likeCount?` model
`item.statistics?.viewCount` / `.likeCount` (absent ⇒ `parseInt('0') = 0`);
`publishedAtMs` models `new Date(item.snippet.publishedAt).getTime()`. -/
structure RawItem where
  id : String
  title : String
  channelTitle : String
  publishedAt : String
  duration : String
  viewCount? : Option ℕ
  likeCount? : Option ℕ
  publishedAtMs : ℚ
deriving DecidableEq, Repr

/-- The `YouTubeVideo` record built by `searchYouTube`. -/
structure YouTubeVideo where
  videoId : String
  title : String
  channel : String
  viewCount : String
  publishedAt : String
  duration : String
  engagementScore : ℚ
deriving DecidableEq, Repr

/-- The per-item mapping body of `searchYouTube` (source lines 49–70),
with `nowMs` the value of `Date.now()`. -/
def mkVideo (nowMs : ℚ) (item : RawItem) : YouTubeVideo :=
  let viewCount := item.viewCount?.getD 0
  let likeCount := item.likeCount?.getD 0
  let daysSincePublish : ℚ := max 1 ((nowMs - item.publishedAtMs) / (1000 * 60 * 60 * 24))
  let engagementScore : ℤ :=
    jsRound ((viewCount : ℚ) / daysSincePublish * 0.5 + (likeCount : ℚ) * 10 +
      (if 100000 < viewCount then 50 else 0))
  { videoId := item.id
    title := item.title
    channel := item.channelTitle
    viewCount := formatViewCount viewCount
    publishedAt := item.publishedAt
    duration := item.duration
    engagementScore := min 100 (max 1 ((engagementScore : ℚ) / 1000)) }

/-- `daysSincePublish` of source line 55 as a standalone function. -/
def daysSincePublish (nowMs publishedAtMs : ℚ) : ℚ :=
  max 1 ((nowMs - publishedAtMs) / (1000 * 60 * 60 * 24))

/-- The raw (pre-rounding) score of source lines 57–59 as a standalone
function of view count, like count and age in days. -/
def rawScore (viewCount likeCount : ℕ) (days : ℚ) : ℚ :=
  (viewCount : ℚ) / days * 0.5 + (likeCount : ℚ) * 10 +
    (if 100000 < viewCount then 50 else 0)

/-- The engagement score the code assigns (source lines 56–60 and 69):
round the raw score, divide by 1000, clamp into `[1, 100]`. -/
def engagementScore (viewCount likeCount : ℕ) (days : ℚ) : ℚ :=
  min 100 (max 1 ((jsRound (rawScore viewCount likeCount days) : ℚ) / 1000))

/-- Modelled from the spec's words (§4.3 step 3):
`engagementScore = clamp(round(rawScore / 1000), 1, 100)` — the division
by 1000 happens before rounding.  For comparison with `engagementScore`. -/
def engagementScoreSpec (viewCount likeCount : ℕ) (days : ℚ) : ℚ :=
  min 100 (max 1 ((jsRound (rawScore viewCount likeCount days / 1000) : ℚ)))

/-- The pure tail of `searchYouTube` (source lines 49–74): map the detail
items to scored videos, then sort descending by engagement score.  The
JavaScript comparator `(a, b) => b.engagementScore - a.engagementScore`
with a stable sort corresponds to a stable merge sort under
`b.engagementScore ≤ a.engagementScore`. -/
def searchYouTube (nowMs : ℚ) (items : List RawItem) : List YouTubeVideo :=
  (items.map (mkVideo nowMs)).mergeSort
    (fun a b => decide (b.engagementScore ≤ a.engagementScore))

/-- One planned subtask as parsed from the generative response
(`subtask.title`, `subtask.searchQuery`; either field may be absent). -/
structure SubtaskPlan where
  title : Option String
  searchQuery : Option String
deriving DecidableEq, Repr

/-- The parsed planner payload (`parsedData`): a `subtasks` array and a
`mainSearchQuery`, either of which may be absent in a parsed response. -/
structure ParsedData where
  subtasks : Option (List SubtaskPlan)
  mainSearchQuery : Option String
deriving DecidableEq, Repr

/-- JavaScript `x || d` for a string-valued field `x` that may be absent:
absent and the empty string are falsy. -/
def jsOr (x : Option String) (d : String) : String :=
  match x with
  | some s => if s = "" then d else s
  | none => d

/-- JavaScript template interpolation of a possibly-absent string
(an absent value renders as `"undefined"`). -/
def jsTemplate (x : Option String) : String :=
  match x with
  | some s => s
  | none => "undefined"

/-- The deterministic fallback plan substituted on parse failure
(source lines 184–192). -/
def fallbackPlan (topic : String) : ParsedData :=
  { subtasks := some
      [ { title := some ("Introduction to " ++ topic)
          searchQuery := some (topic ++ " introduction tutorial") }
      , { title := some ("Core concepts of " ++ topic)
          searchQuery := some (topic ++ " explained for beginners") }
      , { title := some ("Practice " ++ topic)
          searchQuery := some (topic ++ " examples practice") } ]
    mainSearchQuery := some (topic ++ " tutorial explained") }

/-- One video record of the success response body (source lines 211–218). -/
structure VideoOut where
  videoId : String
  title : String
  channel : String
  views : String
  engagementScore : ℚ
  reason : String
deriving DecidableEq, Repr

/-- One subtask record of the success response body (lines 208–226). -/
structure SubtaskOut where
  title : String
  description : String
  videos : List VideoOut
deriving DecidableEq, Repr

/-- The success response body (source lines 233–241). -/
structure DiscoveryResult where
  videoId : String
  title : String
  channel : String
  reason : String
  subtasks : List SubtaskOut
deriving DecidableEq, Repr

/-- An HTTP response of the handler: a 200 success body, or a failure
status together with the string placed in the error body. -/
inductive HandlerResponse where
  | success (result : DiscoveryResult)
  | failure (status : ℕ) (error : String)
deriving DecidableEq, Repr

/-- The generative-gateway response as observed by the handler
(`aiResponse.ok`, `aiResponse.status`). -/
structure AIResponse where
  ok : Bool
  status : ℕ
deriving DecidableEq, Repr

/-- Everything external the handler consumes in one request:
`body` is the outcome of `req.json()` (`error` = the body did not parse;
`ok topic?` = the parsed body's `topic` field, absent or a string);
`youtubeKey`/`lovableKey` are the two environment secrets;
`aiResponse` is the generative-gateway fetch outcome;
`parseResult` is the outcome of fence-stripping + `JSON.parse` on the
gateway's content (`none` = it threw, triggering the fallback);
`nowMs` is `Date.now()`; `search` maps each YouTube query to the detail
items obtained, or to the thrown error's message. -/
structure HandlerEnv where
  body : Except String (Option String)
  youtubeKey : Option String
  lovableKey : Option String
  aiResponse : AIResponse
  parseResult : Option ParsedData
  nowMs : ℚ
  search : String → Except String (List RawItem)

/-- The plan the handler proceeds with (source lines 174–193): the parsed
payload when parsing succeeded, the deterministic fallback otherwise. -/
def planOf (env : HandlerEnv) (topic : String) : ParsedData :=
  match env.parseResult with
  | some d => d
  | none => fallbackPlan topic

/-- The per-subtask fan-out body (source lines 205–228): search, score,
rank and annotate; a thrown search error is absorbed into an empty
video list. -/
def processSubtask (search : String → Except String (List RawItem)) (nowMs : ℚ)
    (topic : String) (idx : ℕ) (subtask : SubtaskPlan) : SubtaskOut :=
  match search (jsOr subtask.searchQuery (topic ++ " " ++ jsTemplate subtask.title)) with
  | Except.error _ =>
    { title := jsOr subtask.title ("Part " ++ toString (idx + 1))
      description := jsOr subtask.searchQuery ""
      videos := [] }
  | Except.ok items =>
    { title := jsOr subtask.title ("Part " ++ toString (idx + 1))
      description := jsOr subtask.searchQuery ""
      videos := (searchYouTube nowMs items).enum.map (fun p =>
        { videoId := p.2.videoId
          title := p.2.title
          channel := p.2.channel
          views := p.2.viewCount
          engagementScore := p.2.engagementScore
          reason := if p.1 = 0 then "Highest engagement for this topic"
                    else "Recommended video #" ++ toString (p.1 + 1) }) }

/-- The request handler (source lines 87–251), with every `throw` that
reaches the outer `catch` turned into a 500 response carrying the
error's message. -/
def handler (env : HandlerEnv) : HandlerResponse :=
  match env.body with
  | Except.error e => HandlerResponse.failure 500 e
  | Except.ok none => HandlerResponse.failure 400 "Topic is required"
  | Except.ok (some topic) =>
    if topic = "" then HandlerResponse.failure 400 "Topic is required"
    else if env.youtubeKey.isNone then
      HandlerResponse.failure 500 "YouTube API key is not configured"
    else if env.lovableKey.isNone then
      HandlerResponse.failure 500 "LOVABLE_API_KEY is not configured"
    else if !env.aiResponse.ok then
      if env.aiResponse.status = 429 then
        HandlerResponse.failure 429 "Rate limit exceeded. Please try again later."
      else if env.aiResponse.status = 402 then
        HandlerResponse.failure 402 "Payment required. Please add credits."
      else HandlerResponse.failure 500 "AI gateway error"
    else
      let parsedData := planOf env topic
      match env.search (jsOr parsedData.mainSearchQuery (topic ++ " tutorial")) with
      | Except.error e => HandlerResponse.failure 500 e
      | Except.ok mainItems =>
        match searchYouTube env.nowMs mainItems with
        | [] => HandlerResponse.failure 500 "No videos found for this topic"
        | primaryVideo :: _ =>
          HandlerResponse.success
            { videoId := primaryVideo.videoId
              title := primaryVideo.title
              channel := primaryVideo.channel
              reason := "Best educational video for \"" ++ topic ++ "\" with " ++
                primaryVideo.viewCount ++ " views"
              subtasks := (((parsedData.subtasks).getD []).take 5).enum.map
                (fun p => processSubtask env.search env.nowMs topic p.1 p.2) }

/-- The number of subtasks in a success response (`none` on failure). -/
def respSubtasksCount : HandlerResponse → Option ℕ
  | HandlerResponse.success r => some r.subtasks.length
  | HandlerResponse.failure _ _ => none

/-- The descending-score comparison used by the sort at source line 74. -/
def scoreDesc (a b : YouTubeVideo) : Bool :=
  decide (b.engagementScore ≤ a.engagementScore)

/-- Whether the parsed request body lacks a usable topic (absent field or
empty string — both falsy at source line 95). -/
def topicMissing (env : HandlerEnv) : Bool :=
  match env.body with
  | Except.ok none => true
  | Except.ok (some t) => t = ""
  | Except.error _ => false

/-- Whether the request reaches the generative planning call: body parsed
with a truthy topic and both API keys configured. -/
def reachesPlanning (env : HandlerEnv) : Bool :=
  (match env.body with
   | Except.ok (some t) => t ≠ ""
   | _ => false) &&
  env.youtubeKey.isSome && env.lovableKey.isSome

/-- Whether the generative service reported rate limiting to a request
that reached it. -/
def rateLimited (env : HandlerEnv) : Bool :=
  reachesPlanning env && !env.aiResponse.ok && env.aiResponse.status == 429

/-- Whether the generative service reported quota/payment exhaustion to a
request that reached it. -/
def quotaRequired (env : HandlerEnv) : Bool :=
  reachesPlanning env && !env.aiResponse.ok && env.aiResponse.status == 402

/-! Concrete inputs used by counterexamples and witnesses. -/

/-- Concrete details item: zero views, 150 likes, published at the
current instant (so `daysSincePublish = 1` and `rawScore = 1500`). -/
def itemC1 : RawItem :=
  { id := "vid-C1", title := "Video C1", channelTitle := "Chan"
    publishedAt := "2024-01-01T00:00:00Z", duration := "PT10M"
    viewCount? := some 0, likeCount? := some 150, publishedAtMs := 0 }

/-- A concrete subtask plan entry. -/
def subtaskW : SubtaskPlan :=
  { title := some "T1", searchQuery := some "sq" }

/-- A concrete search oracle: query `"sq"` yields `[itemC1]`, anything
else throws. -/
def searchW : String → Except String (List RawItem) :=
  fun q => if q = "sq" then Except.ok [itemC1] else Except.error "boom"

/-- A request environment whose parsed plan has zero subtasks (the
generative response `{"subtasks": [], "mainSearchQuery": "mq"}` parses
successfully) and whose main search returns one candidate. -/
def envC2 : HandlerEnv :=
  { body := Except.ok (some "graphs")
    youtubeKey := some "yk"
    lovableKey := some "lk"
    aiResponse := { ok := true, status := 200 }
    parseResult := some { subtasks := some [], mainSearchQuery := some "mq" }
    nowMs := 0
    search := fun q => if q = "mq" then Except.ok [itemC1] else Except.error "boom" }

/-- The success body the handler produces for `envC2`. -/
def rC2 : DiscoveryResult :=
  { videoId := "vid-C1", title := "Video C1", channel := "Chan"
    reason := "Best educational video for \"graphs\" with 0 views"
    subtasks := [] }

/-- A request environment whose generative response failed to parse
(`parseResult = none`), whose fallback main query finds one candidate,
and whose subtask searches all throw. -/
def envFB : HandlerEnv :=
  { body := Except.ok (some "graphs")
    youtubeKey := some "yk"
    lovableKey := some "lk"
    aiResponse := { ok := true, status := 200 }
    parseResult := none
    nowMs := 0
    search := fun q =>
      if q = "graphs tutorial explained" then Except.ok [itemC1] else Except.error "boom" }

/-- The success body the handler produces for `envFB`: the three fallback
subtasks in plan order, each with an empty video list. -/
def rFB : DiscoveryResult :=
  { videoId := "vid-C1", title := "Video C1", channel := "Chan"
    reason := "Best educational video for \"graphs\" with 0 views"
    subtasks :=
      [ { title := "Introduction to graphs"
          description := "graphs introduction tutorial", videos := [] }
      , { title := "Core concepts of graphs"
          description := "graphs explained for beginners", videos := [] }
      , { title := "Practice graphs"
          description := "graphs examples practice", videos := [] } ] }

/-! Helper lemmas about the scoring function. -/

/-- A subtask plan entry whose query `searchW` rejects. -/
def stErr : SubtaskPlan :=
  { title := some "T2", searchQuery := some "zz" }

/-- A request environment with one planned subtask whose search throws,
while the main search returns one candidate. -/
def envC4 : HandlerEnv :=
  { body := Except.ok (some "graphs")
    youtubeKey := some "yk"
    lovableKey := some "lk"
    aiResponse := { ok := true, status := 200 }
    parseResult := some { subtasks := some [stErr], mainSearchQuery := some "mq" }
    nowMs := 0
    search := fun q => if q = "mq" then Except.ok [itemC1] else Except.error "boom" }

/-- A request environment whose main search succeeds with zero
candidates. -/
def envC5 : HandlerEnv :=
  { body := Except.ok (some "graphs")
    youtubeKey := some "yk"
    lovableKey := some "lk"
    aiResponse := { ok := true, status := 200 }
    parseResult := some { subtasks := some [], mainSearchQuery := some "mq" }
    nowMs := 0
    search := fun q => if q = "mq" then Except.ok [] else Except.error "boom" }

/-- A request whose body parsed but carries no `topic` field. -/
def envC6 : HandlerEnv :=
  { body := Except.ok none
    youtubeKey := none
    lovableKey := none
    aiResponse := { ok := false, status := 0 }
    parseResult := none
    nowMs := 0
    search := fun _ => Except.error "never" }

lemma one_le_daysSincePublish (nowMs publishedAtMs : ℚ) :
    1 ≤ daysSincePublish nowMs publishedAtMs :=
  le_max_left _ _

lemma rawScore_mono_view {v v2 : ℕ} (l : ℕ) {d : ℚ} (hd : 0 < d) (h : v ≤ v2) :
    rawScore v l d ≤ rawScore v2 l d := by
  unfold rawScore
  have hc : (v : ℚ) ≤ (v2 : ℚ) := Nat.cast_le.2 h
  have hb : (if 100000 < v then (50 : ℚ) else 0) ≤ (if 100000 < v2 then 50 else 0) := by
    by_cases hv : 100000 < v
    · have hv2 : 100000 < v2 := lt_of_lt_of_le hv h
      simp [hv, hv2]
    · by_cases hv2 : 100000 < v2 <;> simp [hv, hv2]
  have h1 : (v : ℚ) / d * 0.5 ≤ (v2 : ℚ) / d * 0.5 := by gcongr
  exact add_le_add (add_le_add h1 le_rfl) hb

lemma rawScore_mono_like (v : ℕ) {l l2 : ℕ} (d : ℚ) (h : l ≤ l2) :
    rawScore v l d ≤ rawScore v l2 d := by
  unfold rawScore
  have hc : (l : ℚ) ≤ (l2 : ℚ) := Nat.cast_le.2 h
  have h1 : (l : ℚ) * 10 ≤ (l2 : ℚ) * 10 := by gcongr
  exact add_le_add (add_le_add le_rfl h1) le_rfl

lemma clamp_round_mono {x y : ℚ} (h : x ≤ y) :
    min 100 (max 1 ((jsRound x : ℚ) / 1000)) ≤
      min 100 (max 1 ((jsRound y : ℚ) / 1000)) := by
  have h1 : jsRound x ≤ jsRound y := Int.floor_mono (by linarith)
  have h2 : (jsRound x : ℚ) / 1000 ≤ (jsRound y : ℚ) / 1000 := by
    have hc : ((jsRound x : ℤ) : ℚ) ≤ ((jsRound y : ℤ) : ℚ) := Int.cast_le.2 h1
    gcongr
  exact min_le_min le_rfl (max_le_max le_rfl h2)

lemma engagementScore_bounds (v l : ℕ) (d : ℚ) :
    1 ≤ engagementScore v l d ∧ engagementScore v l d ≤ 100 :=
  ⟨le_min (by norm_num) (le_max_left _ _), min_le_left _ _⟩

lemma mkVideo_score_eq (nowMs : ℚ) (item : RawItem) :
    (mkVideo nowMs item).engagementScore =
      engagementScore (item.viewCount?.getD 0) (item.likeCount?.getD 0)
        (daysSincePublish nowMs item.publishedAtMs) := rfl

lemma scoreDesc_trans : ∀ a b c : YouTubeVideo,
    scoreDesc a b → scoreDesc b c → scoreDesc a c := by
  intro a b c h1 h2
  simp only [scoreDesc, decide_eq_true_eq] at *
  exact le_trans h2 h1

lemma scoreDesc_total : ∀ a b : YouTubeVideo, scoreDesc a b || scoreDesc b a := by
  intro a b
  simp only [scoreDesc, Bool.or_eq_true, decide_eq_true_eq]
  exact le_total _ _

lemma searchYouTube_eq_mergeSort (nowMs : ℚ) (items : List RawItem) :
    searchYouTube nowMs items = (items.map (mkVideo nowMs)).mergeSort scoreDesc := rfl

/-- Claim C1 fails on the code: for the candidate with viewCount 0,
likeCount 150 and age 0 days (so daysSincePublish = 1, rawScore = 1500),
the code assigns engagement score 3/2 — it rounds the raw score first
and only then divides by 1000 inside the clamp — while the claimed
formula clamp(round(rawScore / 1000), 1, 100) gives 2. -/
theorem c1_counterexample :
    (mkVideo 0 itemC1).engagementScore = 3/2 ∧
    engagementScoreSpec 0 150 (daysSincePublish 0 0) = 2 ∧
    (mkVideo 0 itemC1).engagementScore ≠ engagementScoreSpec 0 150 (daysSincePublish 0 0) := by
  refine ⟨?_, ?_, ?_⟩ <;>
    norm_num [mkVideo, itemC1, engagementScoreSpec, rawScore, daysSincePublish, jsRound]

/-- Claim C1 as amended: for every video candidate, the engagement score
computed by the scoring stage equals clamp(round(rawScore) / 1000, 1, 100)
— the raw score is rounded first and the division by 1000 happens after
rounding, so the clamped score may be fractional. -/
theorem c1_amended_score_formula :
    ∀ (nowMs : ℚ) (item : RawItem),
      (mkVideo nowMs item).engagementScore =
        min 100 (max 1 ((jsRound (rawScore (item.viewCount?.getD 0) (item.likeCount?.getD 0)
          (daysSincePublish nowMs item.publishedAtMs)) : ℚ) / 1000)) :=
  fun _ _ => rfl

/-- Claim C3: whenever the scoring stage returns a non-empty list, its
head — the `primaryVideo` the handler selects — is one of the scored
candidates and has maximal engagement score among them; and re-running
the (pure) scoring/selection stage on identical inputs yields the
identical selection. -/
theorem c3_primary_selection :
    ∀ (nowMs : ℚ) (items : List RawItem) (v : YouTubeVideo) (rest : List YouTubeVideo),
      searchYouTube nowMs items = v :: rest →
      (v ∈ items.map (mkVideo nowMs) ∧
        ∀ u ∈ items.map (mkVideo nowMs), u.engagementScore ≤ v.engagementScore) ∧
      searchYouTube nowMs items = searchYouTube nowMs items := by
  intro nowMs items v rest h
  rw [searchYouTube_eq_mergeSort] at h
  have hperm := List.mergeSort_perm (items.map (mkVideo nowMs)) scoreDesc
  have hsorted := List.sorted_mergeSort scoreDesc_trans scoreDesc_total
    (items.map (mkVideo nowMs))
  rw [h] at hperm hsorted
  have hhead := (List.pairwise_cons.1 hsorted).1
  refine ⟨⟨hperm.mem_iff.1 (List.mem_cons_self v rest), ?_⟩, rfl⟩
  intro u hu
  have : u ∈ v :: rest := hperm.mem_iff.2 hu
  rcases List.mem_cons.1 this with h1 | h1
  · exact le_of_eq (congrArg YouTubeVideo.engagementScore h1)
  · exact of_decide_eq_true (hhead u h1)

/-- Witness for C3 at the one-candidate list `[itemC1]`. -/
theorem c3_primary_selection_witness :
    (mkVideo 0 itemC1 ∈ [itemC1].map (mkVideo 0) ∧
      ∀ u ∈ [itemC1].map (mkVideo 0),
        u.engagementScore ≤ (mkVideo 0 itemC1).engagementScore) ∧
    searchYouTube 0 [itemC1] = searchYouTube 0 [itemC1] :=
  c3_primary_selection 0 [itemC1] (mkVideo 0 itemC1) []
    (by simp [searchYouTube])

/-- Claim C7: every computed engagement score lies in [1, 100]; holding
the like count and the age fixed it is non-decreasing in the view count,
and holding the view count and the age fixed it is non-decreasing in the
like count. -/
theorem c7_score_bounds_monotone :
    ∀ (nowMs : ℚ) (item : RawItem),
      (1 ≤ (mkVideo nowMs item).engagementScore ∧
        (mkVideo nowMs item).engagementScore ≤ 100) ∧
      (∀ v2 : ℕ, item.viewCount?.getD 0 ≤ v2 →
        (mkVideo nowMs item).engagementScore ≤
          (mkVideo nowMs { item with viewCount? := some v2 }).engagementScore) ∧
      (∀ l2 : ℕ, item.likeCount?.getD 0 ≤ l2 →
        (mkVideo nowMs item).engagementScore ≤
          (mkVideo nowMs { item with likeCount? := some l2 }).engagementScore) := by
  intro nowMs item
  have hd : (0 : ℚ) < daysSincePublish nowMs item.publishedAtMs :=
    lt_of_lt_of_le zero_lt_one (one_le_daysSincePublish _ _)
  refine ⟨?_, ?_, ?_⟩
  · rw [mkVideo_score_eq]
    exact engagementScore_bounds _ _ _
  · intro v2 h
    rw [mkVideo_score_eq, mkVideo_score_eq]
    exact clamp_round_mono (rawScore_mono_view _ hd h)
  · intro l2 h
    rw [mkVideo_score_eq, mkVideo_score_eq]
    exact clamp_round_mono (rawScore_mono_like _ _ h)

/-- Witness for C7 at a concrete candidate: bounds at `itemC1`, and
monotonicity toward viewCount 200000 and likeCount 200. -/
theorem c7_score_bounds_monotone_witness :
    (1 ≤ (mkVideo 0 itemC1).engagementScore ∧
      (mkVideo 0 itemC1).engagementScore ≤ 100) ∧
    (mkVideo 0 itemC1).engagementScore ≤
      (mkVideo 0 { itemC1 with viewCount? := some 200000 }).engagementScore ∧
    (mkVideo 0 itemC1).engagementScore ≤
      (mkVideo 0 { itemC1 with likeCount? := some 200 }).engagementScore :=
  ⟨(c7_score_bounds_monotone 0 itemC1).1,
    (c7_score_bounds_monotone 0 itemC1).2.1 200000 (by norm_num [itemC1]),
    (c7_score_bounds_monotone 0 itemC1).2.2 200 (by norm_num [itemC1])⟩

lemma enum_map_reason (l : List YouTubeVideo) :
    (l.enum.map (fun p =>
      ({ videoId := p.2.videoId
         title := p.2.title
         channel := p.2.channel
         views := p.2.viewCount
         engagementScore := p.2.engagementScore
         reason := if p.1 = 0 then "Highest engagement for this topic"
                   else "Recommended video #" ++ toString (p.1 + 1) } : VideoOut))).map
        VideoOut.reason =
      (List.range l.length).map
        (fun i => if i = 0 then "Highest engagement for this topic"
                  else "Recommended video #" ++ toString (i + 1)) := by
  rw [List.map_map, ← List.enum_map_fst l, List.map_map]
  rfl

lemma enum_map_views (l : List YouTubeVideo) :
    (l.enum.map (fun p =>
      ({ videoId := p.2.videoId
         title := p.2.title
         channel := p.2.channel
         views := p.2.viewCount
         engagementScore := p.2.engagementScore
         reason := if p.1 = 0 then "Highest engagement for this topic"
                   else "Recommended video #" ++ toString (p.1 + 1) } : VideoOut))).map
        VideoOut.views = l.map YouTubeVideo.viewCount := by
  rw [List.map_map]
  have hfun : (VideoOut.views ∘ fun p : ℕ × YouTubeVideo =>
      ({ videoId := p.2.videoId
         title := p.2.title
         channel := p.2.channel
         views := p.2.viewCount
         engagementScore := p.2.engagementScore
         reason := if p.1 = 0 then "Highest engagement for this topic"
                   else "Recommended video #" ++ toString (p.1 + 1) } : VideoOut)) =
      YouTubeVideo.viewCount ∘ Prod.snd := rfl
  rw [hfun, ← List.map_map, List.enum_map_snd]

/-- Claim C10: the `views` field carried by response videos is the
human-formatted string produced by `formatViewCount`, not the numeric
count: counts of at least 1,000,000 render as the count divided by
1,000,000 to one decimal place followed by "M", counts of at least 1,000
as the count divided by 1,000 to one decimal place followed by "K", and
smaller counts as plain decimal digits. -/
theorem c10_views_formatting :
    ∀ (nowMs : ℚ) (item : RawItem) (count : ℕ)
      (search : String → Except String (List RawItem)) (topic : String)
      (idx : ℕ) (st : SubtaskPlan) (items : List RawItem),
      (mkVideo nowMs item).viewCount = formatViewCount (item.viewCount?.getD 0) ∧
      (search (jsOr st.searchQuery (topic ++ " " ++ jsTemplate st.title)) = Except.ok items →
        (processSubtask search nowMs topic idx st).videos.map VideoOut.views =
          (searchYouTube nowMs items).map YouTubeVideo.viewCount) ∧
      (1000000 ≤ count → formatViewCount count = toFixed1 ((count : ℚ) / 1000000) ++ "M") ∧
      (count < 1000000 → 1000 ≤ count →
        formatViewCount count = toFixed1 ((count : ℚ) / 1000) ++ "K") ∧
      (count < 1000 → formatViewCount count = toString count) := by
  intro nowMs item count search topic idx st items
  refine ⟨rfl, ?_, ?_, ?_, ?_⟩
  · intro hs
    simp only [processSubtask, hs]
    exact enum_map_views _
  · intro h
    simp [formatViewCount, h]
  · intro h1 h2
    simp [formatViewCount, Nat.not_le.2 h1, h2]
  · intro h
    have h2 : ¬ 1000000 ≤ count := by omega
    have h3 : ¬ 1000 ≤ count := by omega
    simp [formatViewCount, h2, h3]

/-- Witness for C10: the pipeline equations at `itemC1`/`subtaskW`, and
the three formatting branches at counts 2,500,000, 1,500 and 999. -/
theorem c10_views_formatting_witness :
    (mkVideo 0 itemC1).viewCount = formatViewCount (itemC1.viewCount?.getD 0) ∧
    (processSubtask searchW 0 "t" 0 subtaskW).videos.map VideoOut.views =
      (searchYouTube 0 [itemC1]).map YouTubeVideo.viewCount ∧
    formatViewCount 2500000 = toFixed1 ((2500000 : ℚ) / 1000000) ++ "M" ∧
    formatViewCount 1500 = toFixed1 ((1500 : ℚ) / 1000) ++ "K" ∧
    formatViewCount 999 = toString 999 :=
  ⟨(c10_views_formatting 0 itemC1 0 searchW "t" 0 subtaskW [itemC1]).1,
   (c10_views_formatting 0 itemC1 0 searchW "t" 0 subtaskW [itemC1]).2.1 rfl,
   (c10_views_formatting 0 itemC1 2500000 searchW "t" 0 subtaskW [itemC1]).2.2.1
     (by norm_num),
   (c10_views_formatting 0 itemC1 1500 searchW "t" 0 subtaskW [itemC1]).2.2.2.1
     (by norm_num) (by norm_num),
   (c10_views_formatting 0 itemC1 999 searchW "t" 0 subtaskW [itemC1]).2.2.2.2
     (by norm_num)⟩

/-- Claim C9: in every success response the subtask results appear in
original plan order — entry i of `subtasks` is the processing of plan
subtask i — and within each subtask the video at rank 0 carries reason
"Highest engagement for this topic" while the video at 0-based index
i ≥ 1 (1-indexed rank N = i + 1) carries reason "Recommended video #N". -/
theorem c9_order_and_reasons :
    (∀ (env : HandlerEnv) (topic : String) (r : DiscoveryResult),
      env.body = Except.ok (some topic) →
      handler env = HandlerResponse.success r →
      r.subtasks = ((((planOf env topic).subtasks).getD []).take 5).enum.map
        (fun p => processSubtask env.search env.nowMs topic p.1 p.2)) ∧
    (∀ (search : String → Except String (List RawItem)) (nowMs : ℚ) (topic : String)
        (idx : ℕ) (st : SubtaskPlan),
      (processSubtask search nowMs topic idx st).videos.map VideoOut.reason =
        (List.range (processSubtask search nowMs topic idx st).videos.length).map
          (fun i => if i = 0 then "Highest engagement for this topic"
                    else "Recommended video #" ++ toString (i + 1))) := by
  constructor
  · intro env topic r hbody hsucc
    obtain ⟨body, yk, lk, ai, pr, nowv, searchv⟩ := env
    simp only at hbody
    subst hbody
    simp only [handler] at hsucc
    split_ifs at hsucc
    split at hsucc
    · cases hsucc
    · split at hsucc
      · cases hsucc
      · cases hsucc
        rfl
  · intro search nowMs topic idx st
    unfold processSubtask
    split
    · simp
    · simp only [List.length_map, List.enum_length]
      exact enum_map_reason _

/-- Claim C8: when the generative response fails to parse, the plan the
handler proceeds with is exactly the deterministic fallback — subtasks
"Introduction to <topic>", "Core concepts of <topic>", "Practice <topic>"
with their templated search queries, and main query
"<topic> tutorial explained" — a pure function of the topic alone. -/
theorem c8_fallback_plan :
    ∀ (env : HandlerEnv) (topic : String), env.parseResult = none →
      planOf env topic = fallbackPlan topic ∧
      planOf env topic =
        { subtasks := some
            [ { title := some ("Introduction to " ++ topic)
                searchQuery := some (topic ++ " introduction tutorial") }
            , { title := some ("Core concepts of " ++ topic)
                searchQuery := some (topic ++ " explained for beginners") }
            , { title := some ("Practice " ++ topic)
                searchQuery := some (topic ++ " examples practice") } ]
          mainSearchQuery := some (topic ++ " tutorial explained") } := by
  intro env topic h
  unfold planOf
  rw [h]
  exact ⟨rfl, rfl⟩

/-- Witness for C8 at `envFB` (whose `parseResult` is `none`) and the
topic "Photosynthesis". -/
theorem c8_fallback_plan_witness :
    planOf envFB "Photosynthesis" = fallbackPlan "Photosynthesis" ∧
    planOf envFB "Photosynthesis" =
      { subtasks := some
          [ { title := some ("Introduction to " ++ "Photosynthesis")
              searchQuery := some ("Photosynthesis" ++ " introduction tutorial") }
          , { title := some ("Core concepts of " ++ "Photosynthesis")
              searchQuery := some ("Photosynthesis" ++ " explained for beginners") }
          , { title := some ("Practice " ++ "Photosynthesis")
              searchQuery := some ("Photosynthesis" ++ " examples practice") } ]
        mainSearchQuery := some ("Photosynthesis" ++ " tutorial explained") } :=
  c8_fallback_plan envFB "Photosynthesis" rfl

/-- Claim C2 fails on the code: the handler performs no shape validation
after JSON parsing, so a successfully parsed generative response with
zero subtasks (content '\x7b"subtasks": [], "mainSearchQuery": "mq"\x7d')
does not trigger the fallback — the request succeeds with a plan of
0 subtasks, violating the claimed lower bound 1 ≤ count(subtasks). -/
theorem c2_counterexample : respSubtasksCount (handler envC2) = some 0 := by
  simp [handler, envC2, planOf, jsOr, searchYouTube, respSubtasksCount]

/-- Claim C2 as amended: every plan the engine proceeds with has at most
5 subtasks (those beyond the 5th are discarded), and when JSON parsing of
the generative response throws, the fallback plan with exactly 3 subtasks
is used; but a parsed response with fewer than 1 subtask is not validated
against and proceeds as-is. -/
theorem c2_amended_subtask_bound :
    ∀ (env : HandlerEnv) (r : DiscoveryResult),
      handler env = HandlerResponse.success r →
      r.subtasks.length ≤ 5 ∧
      (env.parseResult = none → r.subtasks.length = 3) := by
  intro env r hsucc
  obtain ⟨body, yk, lk, ai, pr, nowv, searchv⟩ := env
  cases body with
  | error msg =>
    simp only [handler] at hsucc
    cases hsucc
  | ok topic? =>
    cases topic? with
    | none =>
      simp only [handler] at hsucc
      cases hsucc
    | some topic =>
      simp only [handler] at hsucc
      split_ifs at hsucc
      split at hsucc
      · cases hsucc
      · split at hsucc
        · cases hsucc
        · cases hsucc
          constructor
          · simp only [List.length_map, List.enum_length, List.length_take]
            omega
          · intro hpr
            subst hpr
            simp [planOf, fallbackPlan]

/-- Witness for C2 (amended) at `envFB`: the success body has 3 ≤ 5
subtasks, and since `envFB.parseResult = none` it has exactly 3. -/
theorem c2_amended_subtask_bound_witness :
    rFB.subtasks.length ≤ 5 ∧ rFB.subtasks.length = 3 := by
  have hs : handler envFB = HandlerResponse.success rFB := by
    simp [handler, envFB, planOf, jsOr, searchYouTube, rFB, mkVideo, itemC1, formatViewCount,
      fallbackPlan, processSubtask, jsTemplate, List.enum, List.enumFrom]
    rfl
  have h := c2_amended_subtask_bound envFB rFB hs
  exact ⟨h.1, h.2 rfl⟩

/-- Claim C5: when the request reaches the main-query search, the search
succeeds, but scoring yields zero candidates, the handler fails with
status 500 and the error message "No videos found for this topic" — no
partial success body (and hence no subtasks portion) is returned. -/
theorem c5_empty_main_fails :
    ∀ (env : HandlerEnv) (topic : String) (mainItems : List RawItem),
      env.body = Except.ok (some topic) → topic ≠ "" →
      env.youtubeKey.isSome = true → env.lovableKey.isSome = true →
      env.aiResponse.ok = true →
      env.search (jsOr (planOf env topic).mainSearchQuery (topic ++ " tutorial")) =
        Except.ok mainItems →
      searchYouTube env.nowMs mainItems = [] →
      handler env = HandlerResponse.failure 500 "No videos found for this topic" := by
  intro env topic mainItems hbody ht hyk hlk hai hmain hempty
  obtain ⟨body, yk, lk, ai, pr, nowv, searchv⟩ := env
  simp only at hbody hmain hempty hai hyk hlk
  subst hbody
  cases yk with
  | none => simp at hyk
  | some ykv =>
    cases lk with
    | none => simp at hlk
    | some lkv =>
      simp only [handler, if_neg ht]
      simp [hai, hmain, hempty]

/-- Witness for C5 at `envC5`, whose main-query search returns zero
candidates. -/
theorem c5_empty_main_fails_witness :
    handler envC5 = HandlerResponse.failure 500 "No videos found for this topic" :=
  c5_empty_main_fails envC5 "graphs" [] rfl (by decide) rfl rfl rfl rfl
    (by simp [searchYouTube])

/-- Claim C4: a subtask whose search throws, or returns zero candidates,
contributes an empty `videos` list — the failure is absorbed, not
surfaced — and the overall request still succeeds (producing a full
success body listing every planned subtask) provided the main query
produced at least one candidate. -/
theorem c4_subtask_failure_absorbed :
    ∀ (env : HandlerEnv) (topic : String) (mainItems : List RawItem),
      env.body = Except.ok (some topic) → topic ≠ "" →
      env.youtubeKey.isSome = true → env.lovableKey.isSome = true →
      env.aiResponse.ok = true →
      env.search (jsOr (planOf env topic).mainSearchQuery (topic ++ " tutorial")) =
        Except.ok mainItems →
      searchYouTube env.nowMs mainItems ≠ [] →
      (∃ r, handler env = HandlerResponse.success r ∧
        r.subtasks = ((((planOf env topic).subtasks).getD []).take 5).enum.map
          (fun p => processSubtask env.search env.nowMs topic p.1 p.2)) ∧
      (∀ (search : String → Except String (List RawItem)) (nowMs : ℚ) (t : String)
          (idx : ℕ) (st : SubtaskPlan),
        (search (jsOr st.searchQuery (t ++ " " ++ jsTemplate st.title)) = Except.ok [] ∨
          ∃ msg, search (jsOr st.searchQuery (t ++ " " ++ jsTemplate st.title)) =
            Except.error msg) →
        (processSubtask search nowMs t idx st).videos = []) := by
  intro env topic mainItems hbody ht hyk hlk hai hmain hne
  constructor
  · obtain ⟨body, yk, lk, ai, pr, nowv, searchv⟩ := env
    simp only at hbody hmain hne hai hyk hlk
    subst hbody
    cases yk with
    | none => simp at hyk
    | some ykv =>
      cases lk with
      | none => simp at hlk
      | some lkv =>
        obtain ⟨v, rest, hcons⟩ := List.exists_cons_of_ne_nil hne
        simp only [handler, if_neg ht]
        simp only [hai, Bool.not_true, Bool.false_eq_true, if_false, hmain, hcons]
        exact ⟨_, rfl, rfl⟩
  · intro search nowMs t idx st hfail
    rcases hfail with hnil | ⟨msg, herr⟩
    · simp [processSubtask, hnil, searchYouTube]
    · simp [processSubtask, herr]

/-- Witness for C4 at `envC4`: the request succeeds with its subtask list
in plan order, and the subtask `stErr` (whose search throws "boom")
contributes an empty video list. -/
theorem c4_subtask_failure_absorbed_witness :
    (∃ r, handler envC4 = HandlerResponse.success r ∧
      r.subtasks = ((((planOf envC4 "graphs").subtasks).getD []).take 5).enum.map
        (fun p => processSubtask envC4.search envC4.nowMs "graphs" p.1 p.2)) ∧
    (processSubtask searchW 0 "t" 1 stErr).videos = [] := by
  have h := c4_subtask_failure_absorbed envC4 "graphs" [itemC1] rfl (by decide)
    rfl rfl rfl rfl (by simp [searchYouTube])
  exact ⟨h.1, h.2 searchW 0 "t" 1 stErr (Or.inr ⟨"boom", rfl⟩)⟩

/-- Claim C6: the HTTP status of every failure response is determined by
the failure class — 400 when the parsed body lacks a (truthy) topic, 429
when the generative service reported rate limiting, 402 when it reported
quota/payment exhaustion, and 500 for every other failure (including no
primary video found and any uncaught exception, whose message is the
string placed in the error body). -/
theorem c6_status_classes :
    ∀ (env : HandlerEnv) (s : ℕ) (e : String),
      handler env = HandlerResponse.failure s e →
      s = (if topicMissing env then 400
           else if rateLimited env then 429
           else if quotaRequired env then 402
           else 500) := by
  intro env s e h
  obtain ⟨body, yk, lk, ai, pr, nowv, searchv⟩ := env
  cases body with
  | error msg =>
    simp only [handler] at h
    cases h
    simp [topicMissing, rateLimited, quotaRequired, reachesPlanning]
  | ok topic? =>
    cases topic? with
    | none =>
      simp only [handler] at h
      cases h
      simp [topicMissing]
    | some topic =>
      by_cases ht : topic = ""
      · simp only [handler, if_pos ht] at h
        cases h
        simp [topicMissing, ht]
      · simp only [handler, if_neg ht] at h
        cases yk with
        | none =>
          simp only [Option.isNone_none, if_true] at h
          cases h
          simp [topicMissing, rateLimited, quotaRequired, reachesPlanning, ht]
        | some ykv =>
          simp only [Option.isNone_some, if_false] at h
          cases lk with
          | none =>
            simp only [Option.isNone_none, if_true] at h
            cases h
            simp [topicMissing, rateLimited, quotaRequired, reachesPlanning, ht]
          | some lkv =>
            simp only [Option.isNone_some, if_false] at h
            cases hok : ai.ok with
            | false =>
              simp only [hok, Bool.not_false, if_true] at h
              by_cases h429 : ai.status = 429
              · simp only [if_pos h429] at h
                cases h
                simp [topicMissing, rateLimited, quotaRequired, reachesPlanning, ht, hok, h429]
              · simp only [if_neg h429] at h
                by_cases h402 : ai.status = 402
                · simp only [if_pos h402] at h
                  cases h
                  simp [topicMissing, rateLimited, quotaRequired, reachesPlanning, ht, hok,
                    h429, h402]
                · simp only [if_neg h402] at h
                  cases h
                  simp [topicMissing, rateLimited, quotaRequired, reachesPlanning, ht, hok,
                    h429, h402]
            | true =>
              simp only [hok, Bool.not_true, if_false] at h
              have hcls : (if topicMissing
                    { body := Except.ok (some topic), youtubeKey := some ykv,
                      lovableKey := some lkv, aiResponse := ai, parseResult := pr,
                      nowMs := nowv, search := searchv } then 400
                  else if rateLimited
                    { body := Except.ok (some topic), youtubeKey := some ykv,
                      lovableKey := some lkv, aiResponse := ai, parseResult := pr,
                      nowMs := nowv, search := searchv } then 429
                  else if quotaRequired
                    { body := Except.ok (some topic), youtubeKey := some ykv,
                      lovableKey := some lkv, aiResponse := ai, parseResult := pr,
                      nowMs := nowv, search := searchv } then 402
                  else (500 : ℕ)) = 500 := by
                simp [topicMissing, rateLimited, quotaRequired, reachesPlanning, ht, hok]
              rw [hcls]
              split at h
              · cases h
                rfl
              · split at h
                · cases h
                  rfl
                · revert h
                  split
                  · intro h
                    cases h
                    rfl
                  · intro h
                    cases h

/-- Witness for C6 at `envC6` (a request whose body has no topic): the
handler's failure status 400 matches the failure classification. -/
theorem c6_status_classes_witness :
    (400 : ℕ) = (if topicMissing envC6 then 400
                 else if rateLimited envC6 then 429
                 else if quotaRequired envC6 then 402
                 else 500) :=
  c6_status_classes envC6 400 "Topic is required" rfl

/-- Witness for C9: the success body for `envFB` lists its three planned
subtasks in plan order, and the concrete subtask `subtaskW` gets the
rank-tagged reasons. -/
theorem c9_order_and_reasons_witness :
    rFB.subtasks = ((((planOf envFB "graphs").subtasks).getD []).take 5).enum.map
      (fun p => processSubtask envFB.search envFB.nowMs "graphs" p.1 p.2) ∧
    (processSubtask searchW 0 "t" 0 subtaskW).videos.map VideoOut.reason =
      (List.range (processSubtask searchW 0 "t" 0 subtaskW).videos.length).map
        (fun i => if i = 0 then "Highest engagement for this topic"
                  else "Recommended video #" ++ toString (i + 1)) := by
  constructor
  · exact c9_order_and_reasons.1 envFB "graphs" rFB rfl
      (by
        simp [handler, envFB, planOf, jsOr, searchYouTube, rFB, mkVideo, itemC1,
          formatViewCount, fallbackPlan, processSubtask, jsTemplate, List.enum, List.enumFrom]
        rfl)
  · exact c9_order_and_reasons.2 searchW 0 "t" 0 subtaskW
